import Mathlib

/-
Shallow embedding of `src/updated_app.py` ("BestieAI", an A/B
prompt-preference Streamlit app).

Modelling conventions:
- Python dicts are insertion-ordered association lists (`List (κ × ν)`);
  assignment `d[k] = v` overwrites an existing binding in place or appends
  a new one at the end, matching CPython semantics.
- `st.session_state` is an explicit `SessionState` record; the Streamlit
  event handlers (message submission, preference buttons, idle nudge,
  session reset) become pure state-transition functions.
- `uuid.uuid4()` response identifiers are modelled by a fresh-counter
  (`next_id`), preserving the only property the program relies on:
  freshness of each generated identifier.
- Python float percentages are modelled as exact rationals (`Rat`);
  `count / total * 100` is exact division.
- The OpenAI network call is an oracle parameter
  `api : String → String → Except String String`; the fixed sampling
  temperature (0.7) and token bound (400) are absorbed into the oracle.
- Wall-clock timestamps (`datetime.now()`, `time.time()`) carry no logic
  that the claims depend on and are omitted from the records.
-/

set_option maxRecDepth 10000

namespace BestieAI

/-! ## Python dict helpers (insertion-ordered association lists) -/

/-- `k in d` for a Python dict. -/
def dictHasKey [BEq κ] (d : List (κ × ν)) (k : κ) : Bool :=
  d.any (fun p => p.1 == k)

/-- `d.get(k)` / `d[k]` lookup for a Python dict (first binding wins;
well-formed dicts have distinct keys). -/
def dictGet [BEq κ] (d : List (κ × ν)) (k : κ) : Option ν :=
  (d.find? (fun p => p.1 == k)).map (fun p => p.2)

/-- `d[k] = v` for a Python dict: overwrite an existing binding, else
append a new one at the end (insertion order). -/
def dictInsert [BEq κ] (d : List (κ × ν)) (k : κ) (v : ν) : List (κ × ν) :=
  if dictHasKey d k then
    d.map (fun p => if p.1 == k then (k, v) else p)
  else d ++ [(k, v)]

/-- `d.get(k, 0)` for a rational-valued dict. -/
def qGetD (d : List (String × Rat)) (k : String) : Rat :=
  ((dictGet d k).getD 0)

/-- `d.get(k, 0)` for a natural-valued dict. -/
def nGetD (d : List (String × Nat)) (k : String) : Nat :=
  ((dictGet d k).getD 0)

/-- Python `str.strip()`: drop leading and trailing whitespace.  Stated
over the character list (structurally recursive, hence evaluable by the
kernel, unlike `String.trim`). -/
def pyStrip (s : String) : String :=
  ⟨((s.data.dropWhile Char.isWhitespace).reverse.dropWhile Char.isWhitespace).reverse⟩

/-! ## Data model -/

inductive Role where
  | user
  | assistant
  deriving DecidableEq, Repr

/-- One entry of `st.session_state.conversation_history`.  The Python
object is a dict with optional keys; optional keys become `Option`
fields.  `responses` is the two-key dict
`{"conditional": ..., "dynamic_context": ...}` built at line 608. -/
structure Msg where
  role : Role
  content : String
  response_id : Option Nat := none
  responses : Option (List (String × String)) := none
  option_a_tech : Option String := none
  option_b_tech : Option String := none
  deriving DecidableEq, Repr

/-- The user profile assembled by `collect_user_profile`. -/
structure UserProfile where
  name : String
  preferred_name : String
  communication_style : String
  top_interests : List String
  recent_events : String
  recent_topics : List String
  open_questions : String
  stated_preferences : String
  emotional_trends : String
  deriving DecidableEq, Repr

/-- The raw onboarding form inputs feeding `collect_user_profile`
(each Streamlit text widget's value; empty string = left blank). -/
structure OnboardingForm where
  name : String
  preferred_name : String
  communication_style : String
  selected_interests : List String
  custom_interest : String
  recent_events : String
  recent_topics : String
  open_questions : String
  stated_preferences : String
  emotional_state : String
  deriving DecidableEq, Repr

/-- `collect_user_profile` (lines 300-349): pure assembly of the profile
dict from the form inputs. -/
def collect_user_profile (f : OnboardingForm) : UserProfile :=
  let extra : List String :=
    if f.custom_interest ≠ "" then
      ((f.custom_interest.splitOn ",").map pyStrip).filter (fun i => i ≠ "")
    else []
  let selected_interests := f.selected_interests ++ extra
  let recent_topics_list : List String :=
    if f.recent_topics ≠ "" then (f.recent_topics.splitOn ",").map pyStrip
    else []
  { name := f.name
    preferred_name := if f.preferred_name ≠ "" then f.preferred_name else f.name
    communication_style := f.communication_style
    top_interests := selected_interests
    recent_events := f.recent_events
    recent_topics := recent_topics_list
    open_questions := f.open_questions
    stated_preferences := f.stated_preferences
    emotional_trends := f.emotional_state }

/-! ## Statistics (save_conversation lines 163-174 and 201-202) -/

/-- The techniques counted by the loop at lines 165-173: one entry per
assistant message that carries a `response_id` recorded in the
preference log. -/
def counted_techniques (conversation_history : List Msg)
    (preferred_technique : List (Nat × String)) : List String :=
  conversation_history.filterMap (fun message =>
    if message.role = Role.assistant then
      match message.response_id with
      | some rid => dictGet preferred_technique rid
      | none => none
    else none)

/-- Lines 170-172: `if technique not in counts: counts[technique] = 0;
counts[technique] += 1`. -/
def bumpCount (d : List (String × Nat)) (t : String) : List (String × Nat) :=
  if dictHasKey d t then
    d.map (fun p => if p.1 == t then (p.1, p.2 + 1) else p)
  else d ++ [(t, 1)]

/-- `preferred_techniques_count` after the loop at lines 163-173. -/
def preferred_techniques_count (conversation_history : List Msg)
    (preferred_technique : List (Nat × String)) : List (String × Nat) :=
  (counted_techniques conversation_history preferred_technique).foldl bumpCount []

/-- `total_responses` after the loop at lines 163-173. -/
def total_responses (conversation_history : List Msg)
    (preferred_technique : List (Nat × String)) : Nat :=
  (counted_techniques conversation_history preferred_technique).length

/-- Line 174: `{tech: (count / total_responses * 100) if total_responses > 0
else 0 for tech, count in preferred_techniques_count.items()}`. -/
def technique_percentages (conversation_history : List Msg)
    (preferred_technique : List (Nat × String)) : List (String × Rat) :=
  let total := total_responses conversation_history preferred_technique
  (preferred_techniques_count conversation_history preferred_technique).map
    (fun p => (p.1, if total > 0 then (p.2 : Rat) / (total : Rat) * 100 else 0))

/-! ## Dominant technique (main, lines 480-484) -/

/-- Lines 481-483 (and identically 468-470): `if technique in
technique_counts: technique_counts[technique] += 1` — unknown keys are
ignored. -/
def bumpKnown (d : List (String × Nat)) (technique : String) : List (String × Nat) :=
  if dictHasKey d technique then
    d.map (fun p => if p.1 == technique then (p.1, p.2 + 1) else p)
  else d

/-- Lines 480-483: `technique_counts = {"conditional": 0,
"dynamic_context": 0}` followed by the counting loop over the preference
log's values. -/
def technique_counts (preferred_technique : List (Nat × String)) :
    List (String × Nat) :=
  (preferred_technique.map (fun p => p.2)).foldl bumpKnown
    [("conditional", 0), ("dynamic_context", 0)]

/-- Python `max(d, key=d.get)` over an insertion-ordered dict: the first
key attaining the maximal value (later keys replace only on strictly
greater value). -/
def pyMaxKey (d : List (String × Nat)) : Option String :=
  match d with
  | [] => none
  | p :: rest =>
      some ((rest.foldl (fun best q => if q.2 > best.2 then q else best) p).1)

/-- Line 484: `max(technique_counts, key=technique_counts.get) if
technique_counts else None` — the truthiness test is on the dict itself,
not on the vote total. -/
def preferred_technique_overall (preferred_technique : List (Nat × String)) :
    Option String :=
  if technique_counts preferred_technique ≠ [] then
    pyMaxKey (technique_counts preferred_technique)
  else none

/-! ## Prompt builders (lines 28-98) -/

/-- `generate_conditional_response_prompt` (lines 28-71), with the Python
f-string interpolations spelled out as string concatenation and
`', '.join(...)` as `String.intercalate ", "`. -/
def generate_conditional_response_prompt (user_profile : UserProfile)
    (conversation_context : String) : String :=
  let base_persona := "You are BestieAI, a warm, supportive friend who genuinely cares about the user and communicates in a natural, conversational manner."
  let user_context :=
    "You're speaking with " ++ user_profile.preferred_name ++ ", who:\n- Has interests in: "
      ++ String.intercalate ", " user_profile.top_interests
      ++ "\n- Recently: " ++ user_profile.recent_events
      ++ "\n- Has a communication style that is: " ++ user_profile.communication_style
  let conditional_frameworks := "Use these specialized response frameworks based on the detected user need:\n\nIF user is sharing personal experiences or emotions:\n  - Acknowledge their feelings first\n  - Show understanding through supportive language\n  - Match emotional tone appropriately\n  - Offer perspective or guidance only after validation\n  - Ask follow-up questions that explore emotional dimensions\n\nIF user is seeking factual information:\n  - Provide concise, accurate information upfront\n  - Support with relevant context and explanation\n  - Anticipate follow-up questions in your response\n  - Maintain friendly tone while emphasizing accuracy\n  - Acknowledge limitations of information when appropriate\n\nIF user is making a decision:\n  - Help structure the decision process\n  - Present relevant factors to consider\n  - Avoid overwhelming with too many options\n  - Reflect their stated priorities in your analysis\n  - Support their autonomy rather than directing\n\nIF user seems confused or frustrated:\n  - Use simpler language and shorter sentences\n  - Break down complex information into steps\n  - Confirm understanding before proceeding\n  - Offer alternative explanations or approaches\n  - Maintain encouraging, patient tone"
  let directive :=
    "First, determine which scenario best matches the user's message, then respond according to that framework while maintaining your friendly, personalized approach. Always sound like a supportive friend, not an AI assistant. Use appropriate cultural references when relevant.\n\nCurrent conversation context:\n"
      ++ conversation_context
      ++ "\n\nBuild on the ongoing conversation by referencing relevant points from the current chat. Avoid bringing up past habits or profile details unless directly relevant to the current topic. If the user's input is unclear, ask for clarification. Occasionally ask follow-up questions or suggest related topics to keep the conversation engaging."
  base_persona ++ "\n\n" ++ user_context ++ "\n\n" ++ conditional_frameworks ++ "\n\n" ++ directive

/-- `generate_dynamic_context_prompt` (lines 73-98). -/
def generate_dynamic_context_prompt (user_profile : UserProfile)
    (conversation_context : String) : String :=
  "You are BestieAI, a conversational AI that functions as a supportive, understanding best friend.\n\nYour conversation with "
    ++ user_profile.name
    ++ " has the following relevant context:\n\nUSER PROFILE:\n- Preferred name: "
    ++ user_profile.preferred_name
    ++ "\n- Communication style: " ++ user_profile.communication_style
    ++ "\n- Primary interests: " ++ String.intercalate ", " user_profile.top_interests
    ++ "\n- Recent life events: " ++ user_profile.recent_events
    ++ "\n\nCURRENT CONVERSATION CONTEXT:\n" ++ conversation_context
    ++ "\n\nUse this context to personalize your response while maintaining your friendly, supportive persona. Reference relevant points from the current conversation naturally without explicitly mentioning this instruction. Avoid bringing up past habits or profile details unless directly relevant to the current topic.\n\nRemember that you are simulating a best friend, not an assistant:\n- Use casual, warm language with appropriate expressions\n- Show genuine care and concern\n- Ask follow-up questions that demonstrate you remember and care about them\n- Share occasional thoughts or reactions as a friend would\n- Include culturally relevant references when appropriate\n\nIf the user's input is unclear, ask for clarification. Occasionally ask follow-up questions or suggest related topics to keep the conversation engaging."

/-! ## Completion gateway (lines 100-117) -/

/-- The configuration-error text returned at line 103 when no API client
was constructed (i.e. `OPENAI_API_KEY` was absent at lines 20-23). -/
def apiKeyErrorText : String :=
  "Error: OpenAI API key not found. Please set OPENAI_API_KEY in your environment variables."

/-- `get_completion` (lines 100-117).  The client is `some ()` exactly
when an API key was configured; the network call is the oracle `api`
(temperature 0.7 and the 400-token bound are absorbed into it); a raised
exception is `Except.error` and becomes the inline `"Error: ..."` text. -/
def get_completion (client : Option Unit)
    (api : String → String → Except String String)
    (system_prompt user_message : String) : String :=
  match client with
  | none => apiKeyErrorText
  | some _ =>
    match api system_prompt user_message with
    | Except.ok content => content
    | Except.error e => "Error: " ++ e

/-! ## Context window (lines 26, 351-358) -/

def CONTEXT_WINDOW : Nat := 5

/-- `get_conversation_context` (lines 351-358): Python
`history[-CONTEXT_WINDOW:]` is `drop (length - CONTEXT_WINDOW)`, the
accumulated `context += f"{role}: {content}\n"` a `foldl`, and the final
`.strip()` a `String.trim`. -/
def get_conversation_context (conversation_history : List Msg) : String :=
  ((conversation_history.drop (conversation_history.length - CONTEXT_WINDOW)).foldl
    (fun context message =>
      context ++ (if message.role = Role.user then "User" else "BestieAI")
        ++ ": " ++ message.content ++ "\n")
    "" |> pyStrip)

/-- One rendered context line, as the code produces it: `"User: "` for
user turns and `"BestieAI: "` for assistant turns. -/
def specContextLine (message : Msg) : String :=
  match message.role with
  | Role.user => "User: " ++ message.content
  | Role.assistant => "BestieAI: " ++ message.content

/-- Restatement of the spec's context-window description (most recent
`CONTEXT_WINDOW` turns, all when fewer exist, one line per turn, oldest
first), with the assistant-line prefix amended to the `"BestieAI:"` the
code actually emits, and the code's final whitespace trim retained. -/
def spec_context_window (conversation_history : List Msg) : String :=
  let recent := (conversation_history.reverse.take CONTEXT_WINDOW).reverse
  pyStrip (String.join ((recent.map specContextLine).map (fun line => line ++ "\n")))

/-- The context-window rendering claimed verbatim by the spec: identical
to `spec_context_window` except that assistant lines are prefixed
`"Assistant:"`. -/
def claimed_context_line (message : Msg) : String :=
  match message.role with
  | Role.user => "User: " ++ message.content
  | Role.assistant => "Assistant: " ++ message.content

/-- Context window exactly as the spec sentence describes it
(`"User:"`/`"Assistant:"` prefixes). -/
def claimed_context_window (conversation_history : List Msg) : String :=
  let recent := (conversation_history.reverse.take CONTEXT_WINDOW).reverse
  pyStrip (String.join ((recent.map claimed_context_line).map (fun line => line ++ "\n")))

/-! ## Session state machine (main, lines 405-637) -/

/-- The mutable `st.session_state` fields the chat logic touches. -/
structure SessionState where
  conversation_history : List Msg
  preferred_technique : List (Nat × String)
  current_message_processed : Bool
  next_id : Nat
  deriving DecidableEq, Repr

/-- Fresh session state (lines 405-422). -/
def initState : SessionState :=
  { conversation_history := []
    preferred_technique := []
    current_message_processed := false
    next_id := 0 }

/-- Lines 584-618: the message-submission handler.  Guard at line 584:
`if user_input and not st.session_state.current_message_processed`.
`shuffle_swap` records the outcome of `random.shuffle(techniques)` at
line 600 (`true` = the shuffled order is `["dynamic_context",
"conditional"]`). -/
def submitMessage (client : Option Unit)
    (api : String → String → Except String String)
    (user_profile : UserProfile) (shuffle_swap : Bool)
    (user_input : String) (s : SessionState) : SessionState :=
  if user_input ≠ "" ∧ s.current_message_processed = false then
    let history₁ := s.conversation_history ++
      [{ role := Role.user, content := user_input }]
    let conversation_context := get_conversation_context history₁
    let response_id := s.next_id
    let conditional_prompt :=
      generate_conditional_response_prompt user_profile conversation_context
    let conditional_response := get_completion client api conditional_prompt user_input
    let dynamic_context_prompt :=
      generate_dynamic_context_prompt user_profile conversation_context
    let dynamic_context_response :=
      get_completion client api dynamic_context_prompt user_input
    let option_a_tech := if shuffle_swap then "dynamic_context" else "conditional"
    let option_b_tech := if shuffle_swap then "conditional" else "dynamic_context"
    { conversation_history := history₁ ++
        [{ role := Role.assistant
           content := ""
           response_id := some response_id
           responses := some [("conditional", conditional_response),
                              ("dynamic_context", dynamic_context_response)]
           option_a_tech := some option_a_tech
           option_b_tech := some option_b_tech }]
      preferred_technique := s.preferred_technique
      current_message_processed := true
      next_id := s.next_id + 1 }
  else s

/-- The two preference buttons at lines 565 and 574. -/
inductive OptionLabel where
  | A
  | B
  deriving DecidableEq, Repr

/-- Content mutation `message["content"] = option_x` applies to the
message being rendered for `response_id`, i.e. the first history entry
carrying that identifier with its candidate dict. -/
def updateFirst (l : List Msg) (rid : Nat) (f : Msg → Msg) : List Msg :=
  match l with
  | [] => []
  | m :: rest =>
    if m.response_id == some rid && m.responses.isSome then f m :: rest
    else m :: updateFirst rest rid f

/-- Lines 554-579: the preference-vote handler.  The buttons are only
rendered for a message with a candidate dict whose `response_id` is not
yet in `preferred_technique`; pressing one records the label's strategy
in the log, sets the message content to that strategy's candidate text,
and clears `current_message_processed`. -/
def votePrefer (label : OptionLabel) (rid : Nat) (s : SessionState) : SessionState :=
  if dictHasKey s.preferred_technique rid then s
  else
    match s.conversation_history.find?
        (fun m => m.response_id == some rid && m.responses.isSome) with
    | none => s
    | some message =>
      let tech? := match label with
        | OptionLabel.A => message.option_a_tech
        | OptionLabel.B => message.option_b_tech
      match tech? with
      | none => s
      | some tech =>
        match message.responses.bind (fun rs => dictGet rs tech) with
        | none => s
        | some chosen_text =>
          { conversation_history :=
              updateFirst s.conversation_history rid
                (fun m => { m with content := chosen_text })
            preferred_technique := dictInsert s.preferred_technique rid tech
            current_message_processed := false
            next_id := s.next_id }

/-- Lines 445-451 and 619-637: the welcome message and the idle
re-engagement nudge both append a plain (finalized) assistant turn and
touch none of the experiment state. -/
def appendPlainAssistant (text : String) (s : SessionState) : SessionState :=
  { s with conversation_history := s.conversation_history ++
      [{ role := Role.assistant, content := text }] }

/-- Lines 525-534: `Save & End Conversation` resets the session (fresh
identifiers, empty history and log); the identifier counter only moves
forward. -/
def resetSession (s : SessionState) : SessionState :=
  { conversation_history := []
    preferred_technique := []
    current_message_processed := false
    next_id := s.next_id }

/-- States the Streamlit event loop can actually reach. -/
inductive Reachable : SessionState → Prop where
  | init : Reachable initState
  | submit (client : Option Unit) (api : String → String → Except String String)
      (user_profile : UserProfile) (shuffle_swap : Bool) (user_input : String)
      {s : SessionState} : Reachable s →
      Reachable (submitMessage client api user_profile shuffle_swap user_input s)
  | vote (label : OptionLabel) (rid : Nat) {s : SessionState} :
      Reachable s → Reachable (votePrefer label rid s)
  | nudge (text : String) {s : SessionState} :
      Reachable s → Reachable (appendPlainAssistant text s)
  | reset {s : SessionState} : Reachable s → Reachable (resetSession s)

/-- A history entry is a pending A/B experiment with respect to the
preference log: it carries the candidate dict and an identifier that has
not been voted on. -/
def isPending (log : List (Nat × String)) (m : Msg) : Bool :=
  m.responses.isSome &&
    (match m.response_id with
     | some rid => !(dictHasKey log rid)
     | none => false)

/-- Number of pending experiments in a session. -/
def pendingCount (s : SessionState) : Nat :=
  s.conversation_history.countP (isPending s.preferred_technique)

/-- The most recent assistant turn of a history, if any. -/
def latestAssistantTurn (conversation_history : List Msg) : Option Msg :=
  conversation_history.reverse.find? (fun m => m.role = Role.assistant)

/-- The session invariant maintained by every event handler:
at most one pending experiment; none at all while the input guard
`current_message_processed` is down; and every identifier in play is
below the freshness counter. -/
def SessionInv (s : SessionState) : Prop :=
  pendingCount s ≤ 1
  ∧ (s.current_message_processed = false → pendingCount s = 0)
  ∧ (∀ m ∈ s.conversation_history, ∀ rid, m.response_id = some rid → rid < s.next_id)
  ∧ (∀ p ∈ s.preferred_technique, p.1 < s.next_id)

/-- Lines 546-581: what the chat pane shows for an assistant history
entry.  A resolved A/B turn shows only the preferred strategy's text
(lines 555-558); a still-pending turn shows the voting UI instead of a
single reply (`none` here); a plain assistant message shows its
content. -/
def displayedAssistantText (log : List (Nat × String)) (m : Msg) : Option String :=
  match m.responses, m.response_id with
  | some rs, some rid =>
    match dictGet log rid with
    | some tech => dictGet rs tech
    | none => none
  | _, _ => some m.content

/-! ## Persistence (send_email lines 119-159, save_conversation lines
161-298, caller lines 479-498) -/

/-- Environment and I/O outcomes for one persist invocation. -/
structure SaveEnv where
  json_write_ok : Bool
  csv_write_ok : Bool
  admin_email : Option String
  email_username : Option String
  email_password : Option String
  smtp_delivery_ok : Bool
  deriving DecidableEq, Repr

/-- One appended row of `conversation_data/preferences_summary.csv`
(lines 196-208; the wall-clock timestamp column is omitted). -/
structure CsvRow where
  conversation_id : String
  user_id : String
  preferred_technique : Option String
  conditional_percentage : Rat
  dynamic_context_percentage : Rat
  conversation_length : Nat
  total_responses : Nat
  user_name : String
  communication_style : String
  feedback : String
  deriving DecidableEq, Repr

/-- The per-conversation JSON document (lines 175-186; timestamp
omitted). -/
structure ConversationDoc where
  conversation_id : String
  user_id : String
  conversation_history : List Msg
  preferred_technique : Option String
  technique_percentages : List (String × Rat)
  user_profile : UserProfile
  total_responses : Nat
  detailed_preferences : List (Nat × String)
  feedback : String
  deriving DecidableEq, Repr

/-- Local files plus a counter of actual SMTP delivery attempts. -/
structure FileState where
  json_files : List (String × ConversationDoc)
  csv_rows : List CsvRow
  smtp_attempts : Nat
  deriving DecidableEq, Repr

/-- `save_conversation`'s possible return values: Python `None` (line
194/218), a bare filename (line 298), or the `(filename, email_sent)`
tuple (line 296). -/
inductive SaveResult where
  | failure
  | saved (filename : String)
  | savedWithEmail (filename : String) (email_sent : Bool)
  deriving DecidableEq, Repr

/-- `send_email` (lines 119-159): missing credentials short-circuit to
`False` before any SMTP traffic; otherwise one delivery is attempted and
its success is returned.  The HTML body, subject and attachment payloads
are plain data with no control flow and are abstracted away. -/
def send_email (env : SaveEnv) (fs : FileState) : FileState × Bool :=
  if env.email_username.isNone ∨ env.email_password.isNone then (fs, false)
  else ({ fs with smtp_attempts := fs.smtp_attempts + 1 }, env.smtp_delivery_ok)

/-- `save_conversation` (lines 161-298).  Control flow: JSON write
(early `None` on failure), then CSV append (early `None` on failure,
JSON already persisted), then — only when `send_email_report` and an
admin recipient is configured — one email attempt whose outcome is
returned as a boolean alongside the filename. -/
def save_conversation (env : SaveEnv) (fs : FileState)
    (conversation_id user_id : String) (conversation_history : List Msg)
    (preferred_technique_log : List (Nat × String)) (user_profile : UserProfile)
    (preferred_technique : Option String) (feedback : String)
    (send_email_report : Bool) : FileState × SaveResult :=
  let total := total_responses conversation_history preferred_technique_log
  let percentages := technique_percentages conversation_history preferred_technique_log
  let filename := "conversation_data/conversation_" ++ conversation_id ++ ".json"
  let data : ConversationDoc :=
    { conversation_id := conversation_id
      user_id := user_id
      conversation_history := conversation_history
      preferred_technique := preferred_technique
      technique_percentages := percentages
      user_profile := user_profile
      total_responses := total
      detailed_preferences := preferred_technique_log
      feedback := feedback }
  if env.json_write_ok = false then (fs, SaveResult.failure)
  else
    let fs₁ := { fs with json_files := fs.json_files ++ [(filename, data)] }
    let new_row : CsvRow :=
      { conversation_id := conversation_id
        user_id := user_id
        preferred_technique := preferred_technique
        conditional_percentage := qGetD percentages "conditional"
        dynamic_context_percentage := qGetD percentages "dynamic_context"
        conversation_length := conversation_history.length
        total_responses := total
        user_name := user_profile.name
        communication_style := user_profile.communication_style
        feedback := feedback }
    if env.csv_write_ok = false then (fs₁, SaveResult.failure)
    else
      let fs₂ := { fs₁ with csv_rows := fs₁.csv_rows ++ [new_row] }
      if send_email_report then
        match env.admin_email with
        | some _ =>
          let sent := send_email env fs₂
          (sent.1, SaveResult.savedWithEmail filename sent.2)
        | none => (fs₂, SaveResult.saved filename)
      else (fs₂, SaveResult.saved filename)

/-- Concrete persist environment used by the examples: both file writes
succeed, admin recipient and mail credentials configured, SMTP delivery
failing. -/
def exampleEnv : SaveEnv :=
  { json_write_ok := true
    csv_write_ok := true
    admin_email := some "a@b.c"
    email_username := some "u"
    email_password := some "p"
    smtp_delivery_ok := false }

/-- Empty file state used by the examples. -/
def exampleFs : FileState :=
  { json_files := [], csv_rows := [], smtp_attempts := 0 }

/-- Minimal user profile used by the examples. -/
def exampleProfile : UserProfile :=
  { name := "n"
    preferred_name := "n"
    communication_style := "Casual"
    top_interests := []
    recent_events := ""
    recent_topics := []
    open_questions := ""
    stated_preferences := ""
    emotional_trends := "Neutral" }

/-! ## Helper lemmas -/

theorem dictHasKey_iff_mem_keys [BEq κ] [LawfulBEq κ] (d : List (κ × ν)) (k : κ) :
    dictHasKey d k = true ↔ k ∈ d.map (fun p => p.1) := by
  simp [dictHasKey, List.any_eq_true, List.mem_map]

theorem dictHasKey_eq_false_of_lt (d : List (Nat × String)) (n : Nat)
    (h : ∀ p ∈ d, p.1 < n) : dictHasKey d n = false := by
  rw [← Bool.not_eq_true, dictHasKey]
  simp only [List.any_eq_true, beq_iff_eq, not_exists]
  rintro p ⟨hp, rfl⟩
  exact lt_irrefl _ (h p hp)

theorem foldl_string_append_shift (l : List String) :
    ∀ init : String, l.foldl (· ++ ·) init = init ++ l.foldl (· ++ ·) "" := by
  induction l with
  | nil => intro init; simp [String.append_empty]
  | cons x xs ih =>
    intro init
    simp only [List.foldl_cons]
    rw [ih (init ++ x), ih ("" ++ x), String.empty_append, String.append_assoc]

theorem stringJoin_cons (a : String) (l : List String) :
    String.join (a :: l) = a ++ String.join l := by
  simp only [String.join, List.foldl_cons]
  rw [foldl_string_append_shift l ("" ++ a), String.empty_append]

theorem drop_length_sub_eq_reverse_take (l : List α) (n : Nat) :
    l.drop (l.length - n) = (l.reverse.take n).reverse := by
  induction l with
  | nil => simp
  | cons a t ih =>
    by_cases h : n ≤ t.length
    · have h1 : t.length + 1 - n = (t.length - n) + 1 := by omega
      have h2 : n ≤ t.reverse.length := by simpa using h
      simp only [List.length_cons, h1, List.drop_succ_cons, List.reverse_cons]
      rw [List.take_append_of_le_length h2, ih]
    · have h1 : t.length + 1 - n = 0 := by omega
      have h2 : (t.reverse ++ [a]).length ≤ n := by simp; omega
      simp [h1, List.take_of_length_le h2]

/-! ## C1 -/

theorem technique_counts_foldl (vals : List String) (a b : Nat) :
    vals.foldl bumpKnown [("conditional", a), ("dynamic_context", b)]
      = [("conditional", a + vals.count "conditional"),
         ("dynamic_context", b + vals.count "dynamic_context")] := by
  induction vals generalizing a b with
  | nil => simp
  | cons v vs ih =>
    by_cases hc : v = "conditional"
    · subst hc
      rw [List.foldl_cons]
      have hstep : bumpKnown [("conditional", a), ("dynamic_context", b)] "conditional"
          = [("conditional", a + 1), ("dynamic_context", b)] := by
        simp [bumpKnown, dictHasKey]
      rw [hstep, ih]
      simp [List.count_cons]
      omega
    · by_cases hd : v = "dynamic_context"
      · subst hd
        rw [List.foldl_cons]
        have hstep : bumpKnown [("conditional", a), ("dynamic_context", b)] "dynamic_context"
            = [("conditional", a), ("dynamic_context", b + 1)] := by
          simp [bumpKnown, dictHasKey]
        rw [hstep, ih]
        simp [List.count_cons]
        omega
      · rw [List.foldl_cons]
        have hstep : bumpKnown [("conditional", a), ("dynamic_context", b)] v
            = [("conditional", a), ("dynamic_context", b)] := by
          have h1 : (("conditional" : String) == v) = false :=
            beq_eq_false_iff_ne.mpr (fun h => hc h.symm)
          have h2 : (("dynamic_context" : String) == v) = false :=
            beq_eq_false_iff_ne.mpr (fun h => hd h.symm)
          simp [bumpKnown, dictHasKey, h1, h2]
        rw [hstep, ih]
        simp [List.count_cons, hc, hd]

theorem technique_counts_eq (log : List (Nat × String)) :
    technique_counts log
      = [("conditional", (log.map (fun p => p.2)).count "conditional"),
         ("dynamic_context", (log.map (fun p => p.2)).count "dynamic_context")] := by
  simpa using technique_counts_foldl (log.map (fun p => p.2)) 0 0

/-- C1 (amended): the dominant strategy computed at session end is the
arg-max of the per-strategy vote counts over the two known strategies,
with ties broken by the fixed iteration order of the two-key counts dict
(`"conditional"` first); since that dict is always non-empty, the result
is `some "conditional"` — not `None` — when the log contains zero
entries. -/
theorem C1_dominant_argmax (log : List (Nat × String)) :
    preferred_technique_overall log
      = some (if (log.map (fun p => p.2)).count "conditional"
                 < (log.map (fun p => p.2)).count "dynamic_context"
              then "dynamic_context" else "conditional") := by
  unfold preferred_technique_overall
  rw [technique_counts_eq]
  simp only [ne_eq, reduceCtorEq, not_false_eq_true, if_true, List.cons_ne_self]
  unfold pyMaxKey
  by_cases h : (log.map (fun p => p.2)).count "conditional"
      < (log.map (fun p => p.2)).count "dynamic_context" <;>
    simp [List.foldl_cons, h]

/-- C1 counterexample: on the empty preference log the code computes
`some "conditional"`, never `None` — the truthiness guard at line 484
tests the (always two-element) counts dict, not the vote total. -/
theorem C1_counterexample :
    preferred_technique_overall ([] : List (Nat × String)) = some "conditional"
    ∧ preferred_technique_overall ([] : List (Nat × String)) ≠ none := by
  decide

/-! ## C9 -/

/-- C9: the constructed profile's preferred name falls back to the
entered name exactly when the preferred-display-name field is left
empty. -/
theorem C9_preferred_name_fallback (f : OnboardingForm) :
    (collect_user_profile f).preferred_name
      = if f.preferred_name = "" then f.name else f.preferred_name := by
  unfold collect_user_profile
  by_cases h : f.preferred_name = "" <;> simp [h]

/-! ## C10 -/

/-- C10: when the JSON write fails, `save_conversation` returns `None`
immediately; the file state (CSV rows included) is untouched and no
email is attempted. -/
theorem C10_json_failure_aborts (env : SaveEnv) (fs : FileState)
    (conversation_id user_id : String) (conversation_history : List Msg)
    (log : List (Nat × String)) (user_profile : UserProfile)
    (preferred : Option String) (feedback : String) (send_email_report : Bool)
    (hjson : env.json_write_ok = false) :
    save_conversation env fs conversation_id user_id conversation_history log
        user_profile preferred feedback send_email_report
      = (fs, SaveResult.failure) := by
  unfold save_conversation
  simp [hjson]

theorem C10_witness :
    (({ json_write_ok := false, csv_write_ok := true, admin_email := some "a@b.c",
        email_username := some "u", email_password := some "p",
        smtp_delivery_ok := true } : SaveEnv).json_write_ok = false)
    ∧ save_conversation
        { json_write_ok := false, csv_write_ok := true, admin_email := some "a@b.c",
          email_username := some "u", email_password := some "p",
          smtp_delivery_ok := true }
        { json_files := [], csv_rows := [], smtp_attempts := 0 }
        "c1" "u1" [] [] ⟨"n", "n", "Casual", [], "", [], "", "", "Neutral"⟩
        none "" true
      = ({ json_files := [], csv_rows := [], smtp_attempts := 0 }, SaveResult.failure) :=
  ⟨rfl, C10_json_failure_aborts _ _ _ _ _ _ _ _ _ _ rfl⟩

/-! ## C6 -/

/-- C6: with no API credential (`client = none`) the completion call
returns the configuration-error text without consulting the network
oracle (the result is identical for any two oracles), and a submitted
turn still completes normally with that error text filling both
candidate slots. -/
theorem C6_missing_credential (api api' : String → String → Except String String)
    (system_prompt user_message : String) (user_profile : UserProfile)
    (shuffle_swap : Bool) (user_input : String) (s : SessionState)
    (hin : user_input ≠ "") (hproc : s.current_message_processed = false) :
    get_completion none api system_prompt user_message = apiKeyErrorText
    ∧ get_completion none api system_prompt user_message
        = get_completion none api' system_prompt user_message
    ∧ (submitMessage none api user_profile shuffle_swap user_input s).conversation_history
        = s.conversation_history ++
          [{ role := Role.user, content := user_input },
           { role := Role.assistant
             content := ""
             response_id := some s.next_id
             responses := some [("conditional", apiKeyErrorText),
                                ("dynamic_context", apiKeyErrorText)]
             option_a_tech := some (if shuffle_swap then "dynamic_context" else "conditional")
             option_b_tech := some (if shuffle_swap then "conditional" else "dynamic_context") }] := by
  refine ⟨rfl, rfl, ?_⟩
  unfold submitMessage
  simp [hin, hproc, get_completion]

theorem C6_witness :
    ("hello" ≠ "") ∧ (initState.current_message_processed = false)
    ∧ (get_completion none (fun _ _ => Except.ok "unused") "sp" "um" = apiKeyErrorText
       ∧ get_completion none (fun _ _ => Except.ok "unused") "sp" "um"
           = get_completion none (fun _ _ => Except.error "e") "sp" "um"
       ∧ (submitMessage none (fun _ _ => Except.ok "unused")
            ⟨"n", "n", "Casual", [], "", [], "", "", "Neutral"⟩ false "hello"
            initState).conversation_history
          = initState.conversation_history ++
            [{ role := Role.user, content := "hello" },
             { role := Role.assistant
               content := ""
               response_id := some initState.next_id
               responses := some [("conditional", apiKeyErrorText),
                                  ("dynamic_context", apiKeyErrorText)]
               option_a_tech := some (if false then "dynamic_context" else "conditional")
               option_b_tech := some (if false then "conditional" else "dynamic_context") }]) :=
  ⟨by decide, rfl,
   C6_missing_credential (fun _ _ => Except.ok "unused") (fun _ _ => Except.error "e")
     "sp" "um" ⟨"n", "n", "Casual", [], "", [], "", "", "Neutral"⟩ false "hello"
     initState (by decide) rfl⟩

/-! ## C8 -/

/-- C8: both prompt builders are deterministic pure functions of the
profile and context window, and on every input the two builders produce
distinct strings (their fixed leading template text already differs). -/
theorem C8_builders_distinct_deterministic (user_profile : UserProfile)
    (conversation_context : String) :
    (generate_conditional_response_prompt user_profile conversation_context
       = generate_conditional_response_prompt user_profile conversation_context
     ∧ generate_dynamic_context_prompt user_profile conversation_context
       = generate_dynamic_context_prompt user_profile conversation_context)
    ∧ generate_conditional_response_prompt user_profile conversation_context
       ≠ generate_dynamic_context_prompt user_profile conversation_context := by
  refine ⟨⟨rfl, rfl⟩, ?_⟩
  intro h
  have hc : (generate_conditional_response_prompt user_profile
      conversation_context).data.take 21 = "You are BestieAI, a w".data := by
    unfold generate_conditional_response_prompt
    simp only [String.data_append, List.append_assoc]
    rw [List.take_append_of_le_length (by decide)]
    decide
  have hd : (generate_dynamic_context_prompt user_profile
      conversation_context).data.take 21 = "You are BestieAI, a c".data := by
    unfold generate_dynamic_context_prompt
    simp only [String.data_append, List.append_assoc]
    rw [List.take_append_of_le_length (by decide)]
    decide
  rw [h, hd] at hc
  exact absurd hc (by decide)

/-! ## C4 -/

theorem context_foldl (l : List Msg) :
    ∀ init : String,
      l.foldl (fun context message =>
        context ++ (if message.role = Role.user then "User" else "BestieAI")
          ++ ": " ++ message.content ++ "\n") init
      = init ++ String.join ((l.map specContextLine).map (fun line => line ++ "\n")) := by
  induction l with
  | nil => intro init; simp [String.join, String.append_empty]
  | cons m rest ih =>
    intro init
    simp only [List.foldl_cons, List.map_cons]
    rw [ih, stringJoin_cons, ← String.append_assoc]
    congr 1
    cases hm : m.role <;> simp [specContextLine, hm, String.append_assoc]

/-- C4 (amended): the context window passed to both prompt builders is
the most recent 5 turns (all turns when fewer exist), rendered one per
line in chronological order, oldest first and most recent last, each
line prefixed by role — `"User:"` for user turns and `"BestieAI:"` (not
the spec's `"Assistant:"`) for assistant turns — with surrounding
whitespace stripped from the final string. -/
theorem C4_context_window (conversation_history : List Msg) :
    get_conversation_context conversation_history
      = spec_context_window conversation_history := by
  unfold get_conversation_context spec_context_window
  rw [context_foldl, String.empty_append,
    drop_length_sub_eq_reverse_take conversation_history CONTEXT_WINDOW]

/-- C4 counterexample: on a history holding the single assistant turn
`"hello"`, the code renders the context line `"BestieAI: hello"`, not
the `"Assistant: hello"` the spec's wording prescribes. -/
theorem C4_counterexample :
    get_conversation_context [{ role := Role.assistant, content := "hello" }]
      ≠ claimed_context_window [{ role := Role.assistant, content := "hello" }]
    ∧ get_conversation_context [{ role := Role.assistant, content := "hello" }]
        = "BestieAI: hello"
    ∧ claimed_context_window [{ role := Role.assistant, content := "hello" }]
        = "Assistant: hello" := by
  refine ⟨?_, by decide, by decide⟩
  decide

/-! ## C2 -/

theorem nGetD_cons (k : String) (v : Nat) (d : List (String × Nat)) (t : String) :
    nGetD ((k, v) :: d) t = if k = t then v else nGetD d t := by
  by_cases h : k = t <;> simp [nGetD, dictGet, List.find?_cons, h]

theorem nGetD_map_bump_ne (d : List (String × Nat)) (t t' : String) (h : t' ≠ t) :
    nGetD (d.map (fun p => if p.1 = t then (p.1, p.2 + 1) else p)) t' = nGetD d t' := by
  induction d with
  | nil => rfl
  | cons p d' ih =>
    obtain ⟨k, v⟩ := p
    by_cases hkt : k = t
    · subst hkt
      have hkt' : k ≠ t' := fun hh => h hh.symm
      simp [List.map_cons, nGetD_cons, hkt', ih]
    · by_cases hk' : k = t'
      · subst hk'
        simp [List.map_cons, nGetD_cons, hkt]
      · simp [List.map_cons, nGetD_cons, hkt, hk', ih]

theorem nGetD_map_bump_self (d : List (String × Nat)) (t : String)
    (h : dictHasKey d t = true) :
    nGetD (d.map (fun p => if p.1 = t then (p.1, p.2 + 1) else p)) t = nGetD d t + 1 := by
  induction d with
  | nil => simp [dictHasKey] at h
  | cons p d' ih =>
    obtain ⟨k, v⟩ := p
    by_cases hkt : k = t
    · subst hkt
      simp [List.map_cons, nGetD_cons]
    · have h' : dictHasKey d' t = true := by
        simpa [dictHasKey, List.any_cons, hkt] using h
      simp [List.map_cons, nGetD_cons, hkt, ih h']

theorem nGetD_eq_zero_of_not_hasKey (d : List (String × Nat)) (t : String)
    (h : dictHasKey d t = false) : nGetD d t = 0 := by
  induction d with
  | nil => rfl
  | cons p d' ih =>
    obtain ⟨k, v⟩ := p
    simp only [dictHasKey, List.any_cons, Bool.or_eq_false_iff] at h
    have hk : k ≠ t := by simpa using h.1
    simp [nGetD_cons, hk, ih (by simpa [dictHasKey] using h.2)]

theorem find?_eq_none_of_not_hasKey (d : List (String × Nat)) (t : String)
    (h : dictHasKey d t = false) : d.find? (fun p => p.1 == t) = none := by
  rw [List.find?_eq_none]
  intro p hp hpt
  have : dictHasKey d t = true := List.any_eq_true.mpr ⟨p, hp, hpt⟩
  rw [h] at this
  exact Bool.false_ne_true this

theorem bumpCount_eq_of_hasKey (d : List (String × Nat)) (t : String)
    (h : dictHasKey d t = true) :
    bumpCount d t = d.map (fun p => if p.1 = t then (p.1, p.2 + 1) else p) := by
  rw [bumpCount, if_pos h]
  simp

theorem nGetD_bumpCount (d : List (String × Nat)) (t t' : String) :
    nGetD (bumpCount d t) t' = nGetD d t' + if t' = t then 1 else 0 := by
  by_cases hk : dictHasKey d t
  · rw [bumpCount_eq_of_hasKey d t hk]
    by_cases ht : t' = t
    · subst ht
      simp [nGetD_map_bump_self d t' hk]
    · simp [nGetD_map_bump_ne d t t' ht, ht]
  · rw [bumpCount, if_neg (by simpa using hk)]
    by_cases ht : t' = t
    · subst ht
      have h1 : nGetD d t' = 0 := nGetD_eq_zero_of_not_hasKey d t' (by simpa using hk)
      simp [nGetD, dictGet, List.find?_append,
        find?_eq_none_of_not_hasKey d t' (by simpa using hk), h1]
    · have ht' : t ≠ t' := fun hh => ht hh.symm
      simp only [nGetD, dictGet, List.find?_append, List.find?_cons, List.find?_nil]
      have hb : (t == t') = false := beq_eq_false_iff_ne.mpr ht'
      simp [ht, hb]

theorem nGetD_foldl_bumpCount (ts : List String) :
    ∀ (d : List (String × Nat)) (t' : String),
      nGetD (ts.foldl bumpCount d) t' = nGetD d t' + ts.count t' := by
  induction ts with
  | nil => intro d t'; simp
  | cons v vs ih =>
    intro d t'
    rw [List.foldl_cons, ih, nGetD_bumpCount, List.count_cons]
    by_cases h : t' = v
    · subst h
      simp
      omega
    · have h' : v ≠ t' := fun hh => h hh.symm
      simp [h, h']

theorem hasKey_map_bump (d : List (String × Nat)) (t t' : String) :
    dictHasKey (d.map (fun p => if p.1 = t then (p.1, p.2 + 1) else p)) t'
      = dictHasKey d t' := by
  induction d with
  | nil => rfl
  | cons p d' ih =>
    obtain ⟨k, v⟩ := p
    by_cases hkt : k = t <;>
      simp only [List.map_cons, dictHasKey, List.any_cons, hkt, if_pos, if_neg,
        ite_true, ite_false] at ih ⊢ <;>
      rw [ih]
  
theorem hasKey_bumpCount (d : List (String × Nat)) (t t' : String) :
    dictHasKey (bumpCount d t) t' = (dictHasKey d t' || t == t') := by
  by_cases hk : dictHasKey d t
  · rw [bumpCount_eq_of_hasKey d t hk, hasKey_map_bump]
    by_cases ht : t = t'
    · subst ht
      simp [hk]
    · simp [ht]
  · rw [bumpCount, if_neg (by simpa using hk)]
    simp [dictHasKey, List.any_append]

theorem hasKey_foldl_bumpCount (ts : List String) :
    ∀ (d : List (String × Nat)) (t' : String),
      dictHasKey (ts.foldl bumpCount d) t'
        = (dictHasKey d t' || ts.any (fun v => v == t')) := by
  induction ts with
  | nil => intro d t'; simp
  | cons v vs ih =>
    intro d t'
    rw [List.foldl_cons, ih, hasKey_bumpCount, List.any_cons]
    cases hv : (v == t') <;> cases hk : dictHasKey d t' <;>
      cases ha : vs.any (fun x => x == t') <;> simp [hv, hk, ha]

theorem qGetD_map_pct (counts : List (String × Nat)) (g : Nat → Rat) (t : String) :
    qGetD (counts.map (fun p => (p.1, g p.2))) t
      = if dictHasKey counts t then g (nGetD counts t) else 0 := by
  induction counts with
  | nil => rfl
  | cons p d' ih =>
    obtain ⟨k, v⟩ := p
    by_cases hk : k = t
    · subst hk
      simp [qGetD, dictGet, List.find?_cons, dictHasKey, List.any_cons, nGetD_cons]
    · have hb : (k == t) = false := beq_eq_false_iff_ne.mpr hk
      rw [List.map_cons]
      have h1 : qGetD ((k, g v) :: d'.map (fun p => (p.1, g p.2))) t
          = qGetD (d'.map (fun p => (p.1, g p.2))) t := by
        simp [qGetD, dictGet, List.find?_cons, hb]
      have h2 : dictHasKey ((k, v) :: d') t = dictHasKey d' t := by
        simp [dictHasKey, List.any_cons, hb]
      rw [h1, h2, nGetD_cons, if_neg hk]
      exact ih

theorem count_pair_eq_length (l : List String)
    (h : ∀ x ∈ l, x = "conditional" ∨ x = "dynamic_context") :
    l.count "conditional" + l.count "dynamic_context" = l.length := by
  induction l with
  | nil => rfl
  | cons x xs ih =>
    have hx := h x (List.mem_cons_self x xs)
    have hxs := fun y hy => h y (List.mem_cons_of_mem x hy)
    have e1 : (("conditional" : String) == "conditional") = true := by decide
    have e2 : (("conditional" : String) == "dynamic_context") = false := by decide
    have e3 : (("dynamic_context" : String) == "conditional") = false := by decide
    have e4 : (("dynamic_context" : String) == "dynamic_context") = true := by decide
    have hih := ih hxs
    rcases hx with hx | hx <;> subst hx <;>
      rw [List.count_cons, List.count_cons, List.length_cons] <;>
      simp [e1, e2, e3, e4] <;> omega

/-- C2: for the statistics computed by `save_conversation`, each of the
two known strategies' percentages equals `100 x count / N` when the
counted total `N` is positive and is exactly 0 when `N = 0` (the guard
at line 174 makes the computation total), and for `N > 0` the two
percentages sum exactly to 100. -/
theorem C2_percentages (conversation_history : List Msg) (log : List (Nat × String))
    (hknown : ∀ t ∈ counted_techniques conversation_history log,
        t = "conditional" ∨ t = "dynamic_context") :
    (total_responses conversation_history log = 0 →
        qGetD (technique_percentages conversation_history log) "conditional" = 0
        ∧ qGetD (technique_percentages conversation_history log) "dynamic_context" = 0)
    ∧ (0 < total_responses conversation_history log →
        qGetD (technique_percentages conversation_history log) "conditional"
            = 100 * ((counted_techniques conversation_history log).count "conditional" : Rat)
                / (total_responses conversation_history log : Rat)
        ∧ qGetD (technique_percentages conversation_history log) "dynamic_context"
            = 100 * ((counted_techniques conversation_history log).count "dynamic_context" : Rat)
                / (total_responses conversation_history log : Rat)
        ∧ qGetD (technique_percentages conversation_history log) "conditional"
            + qGetD (technique_percentages conversation_history log) "dynamic_context"
            = 100) := by
  have hts : counted_techniques conversation_history log
      = counted_techniques conversation_history log := rfl
  set ts := counted_techniques conversation_history log with hdef
  have hperc : technique_percentages conversation_history log
      = (ts.foldl bumpCount []).map
          (fun p => (p.1, if 0 < ts.length then (p.2 : Rat) / (ts.length : Rat) * 100 else 0)) := rfl
  have hlen : total_responses conversation_history log = ts.length := rfl
  have heval : ∀ t : String,
      qGetD (technique_percentages conversation_history log) t
        = if ts.any (fun v => v == t) then
            (if 0 < ts.length then ((ts.count t : Rat)) / (ts.length : Rat) * 100 else 0)
          else 0 := by
    intro t
    rw [hperc,
      qGetD_map_pct (ts.foldl bumpCount [])
        (fun c => if 0 < ts.length then (c : Rat) / (ts.length : Rat) * 100 else 0) t,
      hasKey_foldl_bumpCount, nGetD_foldl_bumpCount]
    simp [dictHasKey, nGetD, dictGet]
  constructor
  · intro h0
    rw [hlen] at h0
    have hnil : ts = [] := List.length_eq_zero.mp h0
    constructor <;> simp [heval, hnil]
  · intro hpos
    rw [hlen] at hpos
    have hq : (ts.length : Rat) ≠ 0 := by
      exact_mod_cast Nat.pos_iff_ne_zero.mp hpos
    have key : ∀ t : String,
        qGetD (technique_percentages conversation_history log) t
          = 100 * (ts.count t : Rat) / (ts.length : Rat) := by
      intro t
      rw [heval t]
      by_cases hmem : ts.any (fun v => v == t)
      · rw [if_pos hmem, if_pos hpos]
        ring
      · have hc : ts.count t = 0 := by
          rw [List.count_eq_zero]
          intro hmem'
          exact absurd (show (ts.any fun v => v == t) = true from
            List.any_eq_true.mpr ⟨t, hmem', beq_self_eq_true t⟩) hmem
        rw [if_neg hmem, hc]
        simp
    rw [hlen]
    refine ⟨key _, key _, ?_⟩
    rw [key, key]
    have hsum : (ts.count "conditional" : Rat) + (ts.count "dynamic_context" : Rat)
        = (ts.length : Rat) := by
      exact_mod_cast count_pair_eq_length ts hknown
    field_simp
    linarith [hsum]

theorem C2_witness :
    (∀ t ∈ counted_techniques
        [{ role := Role.assistant, content := "", response_id := some 0,
           responses := some [("conditional", "a"), ("dynamic_context", "b")],
           option_a_tech := some "conditional", option_b_tech := some "dynamic_context" }]
        [(0, "conditional")],
      t = "conditional" ∨ t = "dynamic_context")
    ∧ ((total_responses
          [{ role := Role.assistant, content := "", response_id := some 0,
             responses := some [("conditional", "a"), ("dynamic_context", "b")],
             option_a_tech := some "conditional", option_b_tech := some "dynamic_context" }]
          [(0, "conditional")] = 0 →
        qGetD (technique_percentages
          [{ role := Role.assistant, content := "", response_id := some 0,
             responses := some [("conditional", "a"), ("dynamic_context", "b")],
             option_a_tech := some "conditional", option_b_tech := some "dynamic_context" }]
          [(0, "conditional")]) "conditional" = 0
        ∧ qGetD (technique_percentages
          [{ role := Role.assistant, content := "", response_id := some 0,
             responses := some [("conditional", "a"), ("dynamic_context", "b")],
             option_a_tech := some "conditional", option_b_tech := some "dynamic_context" }]
          [(0, "conditional")]) "dynamic_context" = 0)
      ∧ (0 < total_responses
          [{ role := Role.assistant, content := "", response_id := some 0,
             responses := some [("conditional", "a"), ("dynamic_context", "b")],
             option_a_tech := some "conditional", option_b_tech := some "dynamic_context" }]
          [(0, "conditional")] →
        qGetD (technique_percentages
          [{ role := Role.assistant, content := "", response_id := some 0,
             responses := some [("conditional", "a"), ("dynamic_context", "b")],
             option_a_tech := some "conditional", option_b_tech := some "dynamic_context" }]
          [(0, "conditional")]) "conditional"
            = 100 * ((counted_techniques
          [{ role := Role.assistant, content := "", response_id := some 0,
             responses := some [("conditional", "a"), ("dynamic_context", "b")],
             option_a_tech := some "conditional", option_b_tech := some "dynamic_context" }]
          [(0, "conditional")]).count "conditional" : Rat)
                / (total_responses
          [{ role := Role.assistant, content := "", response_id := some 0,
             responses := some [("conditional", "a"), ("dynamic_context", "b")],
             option_a_tech := some "conditional", option_b_tech := some "dynamic_context" }]
          [(0, "conditional")] : Rat)
        ∧ qGetD (technique_percentages
          [{ role := Role.assistant, content := "", response_id := some 0,
             responses := some [("conditional", "a"), ("dynamic_context", "b")],
             option_a_tech := some "conditional", option_b_tech := some "dynamic_context" }]
          [(0, "conditional")]) "dynamic_context"
            = 100 * ((counted_techniques
          [{ role := Role.assistant, content := "", response_id := some 0,
             responses := some [("conditional", "a"), ("dynamic_context", "b")],
             option_a_tech := some "conditional", option_b_tech := some "dynamic_context" }]
          [(0, "conditional")]).count "dynamic_context" : Rat)
                / (total_responses
          [{ role := Role.assistant, content := "", response_id := some 0,
             responses := some [("conditional", "a"), ("dynamic_context", "b")],
             option_a_tech := some "conditional", option_b_tech := some "dynamic_context" }]
          [(0, "conditional")] : Rat)
        ∧ qGetD (technique_percentages
          [{ role := Role.assistant, content := "", response_id := some 0,
             responses := some [("conditional", "a"), ("dynamic_context", "b")],
             option_a_tech := some "conditional", option_b_tech := some "dynamic_context" }]
          [(0, "conditional")]) "conditional"
            + qGetD (technique_percentages
          [{ role := Role.assistant, content := "", response_id := some 0,
             responses := some [("conditional", "a"), ("dynamic_context", "b")],
             option_a_tech := some "conditional", option_b_tech := some "dynamic_context" }]
          [(0, "conditional")]) "dynamic_context"
            = 100)) :=
  ⟨by decide, C2_percentages _ _ (by decide)⟩

/-! ## Session-machine helper lemmas (C3, C5) -/

theorem isPending_content_update (log : List (Nat × String)) (m : Msg) (txt : String) :
    isPending log { m with content := txt } = isPending log m := rfl

theorem countP_updateFirst (l : List Msg) (rid : Nat) (f : Msg → Msg)
    (q : Msg → Bool) (hq : ∀ x, q (f x) = q x) :
    (updateFirst l rid f).countP q = l.countP q := by
  induction l with
  | nil => rfl
  | cons m rest ih =>
    unfold updateFirst
    by_cases hc : (m.response_id == some rid && m.responses.isSome) = true
    · rw [if_pos hc]
      rw [List.countP_cons, List.countP_cons, hq]
    · rw [if_neg hc]
      rw [List.countP_cons, List.countP_cons, ih]

theorem response_id_updateFirst (l : List Msg) (rid : Nat) (f : Msg → Msg)
    (hf : ∀ x, (f x).response_id = x.response_id) :
    ∀ m' ∈ updateFirst l rid f, ∃ m ∈ l, m'.response_id = m.response_id := by
  induction l with
  | nil => intro m' hm'; cases hm'
  | cons m rest ih =>
    intro m' hm'
    unfold updateFirst at hm'
    by_cases hc : (m.response_id == some rid && m.responses.isSome) = true
    · rw [if_pos hc] at hm'
      rcases List.mem_cons.mp hm' with h | h
      · exact ⟨m, List.mem_cons_self m rest, h ▸ hf m⟩
      · exact ⟨m', List.mem_cons_of_mem m h, rfl⟩
    · rw [if_neg hc] at hm'
      rcases List.mem_cons.mp hm' with h | h
      · exact ⟨m, List.mem_cons_self m rest, h ▸ rfl⟩
      · obtain ⟨m₀, hm₀, he⟩ := ih m' h
        exact ⟨m₀, List.mem_cons_of_mem m hm₀, he⟩

theorem countP_ge_two {α : Type} {p : α → Bool} {l : List α} {a b : α}
    (ha : a ∈ l) (hb : b ∈ l) (hne : a ≠ b) (hpa : p a = true) (hpb : p b = true) :
    2 ≤ l.countP p := by
  obtain ⟨l₁, l₂, rfl⟩ := List.append_of_mem ha
  rw [List.countP_append, List.countP_cons]
  rcases List.mem_append.mp hb with h | h
  · have h1 : 0 < l₁.countP p := List.countP_pos.mpr ⟨b, h, hpb⟩
    simp [hpa]
    omega
  · have hbl₂ : b ∈ l₂ := by
      rcases List.mem_cons.mp h with h' | h'
      · exact absurd h' (fun he => hne he.symm)
      · exact h'
    have h2 : 0 < l₂.countP p := List.countP_pos.mpr ⟨b, hbl₂, hpb⟩
    simp [hpa]
    omega

theorem dictHasKey_map_overwrite [BEq κ] [LawfulBEq κ] (d : List (κ × ν)) (k k' : κ) (v : ν) :
    dictHasKey (d.map (fun p => if p.1 == k then (k, v) else p)) k' = dictHasKey d k' := by
  induction d with
  | nil => rfl
  | cons p rest ih =>
    obtain ⟨a, b⟩ := p
    by_cases hak : (a == k) = true
    · have ha : a = k := eq_of_beq hak
      subst ha
      simp only [List.map_cons, hak, if_pos, dictHasKey, List.any_cons] at ih ⊢
      rw [ih]
    · simp only [List.map_cons, hak, if_neg, dictHasKey, List.any_cons,
        Bool.false_eq_true, ite_false] at ih ⊢
      rw [ih]

theorem dictHasKey_dictInsert [BEq κ] [LawfulBEq κ] (d : List (κ × ν)) (k k' : κ) (v : ν) :
    dictHasKey (dictInsert d k v) k' = (dictHasKey d k' || k == k') := by
  by_cases hk : dictHasKey d k = true
  · rw [dictInsert, if_pos hk, dictHasKey_map_overwrite]
    by_cases he : (k == k') = true
    · have : k = k' := eq_of_beq he
      subst this
      simp [hk, he]
    · simp [he]
  · rw [dictInsert, if_neg hk]
    simp [dictHasKey, List.any_append]

theorem find?_decomp {α : Type} {p : α → Bool} {l : List α} {a : α}
    (h : l.find? p = some a) :
    ∃ l₁ l₂, l = l₁ ++ a :: l₂ ∧ ∀ x ∈ l₁, p x = false := by
  induction l with
  | nil => cases h
  | cons m rest ih =>
    by_cases hp : p m = true
    · rw [List.find?_cons_of_pos _ hp] at h
      obtain rfl : m = a := by injection h
      exact ⟨[], rest, rfl, by intro x hx; cases hx⟩
    · rw [List.find?_cons_of_neg _ hp] at h
      obtain ⟨l₁, l₂, rfl, hl₁⟩ := ih h
      refine ⟨m :: l₁, l₂, rfl, ?_⟩
      intro x hx
      rcases List.mem_cons.mp hx with h' | h'
      · subst h'
        exact Bool.not_eq_true _ ▸ (by simpa using hp)
      · exact hl₁ x h'

theorem updateFirst_of_decomp (l₁ l₂ : List Msg) (a : Msg) (rid : Nat) (f : Msg → Msg)
    (h₁ : ∀ x ∈ l₁, (x.response_id == some rid && x.responses.isSome) = false)
    (ha : (a.response_id == some rid && a.responses.isSome) = true) :
    updateFirst (l₁ ++ a :: l₂) rid f = l₁ ++ f a :: l₂ := by
  induction l₁ with
  | nil =>
    simp only [List.nil_append, updateFirst, ha, if_pos]
  | cons m rest ih =>
    have hm := h₁ m (List.mem_cons_self m rest)
    simp only [List.cons_append, updateFirst, hm, Bool.false_eq_true, ite_false,
      List.append_eq]
    rw [ih (fun x hx => h₁ x (List.mem_cons_of_mem m hx))]

theorem votePrefer_enabled (s : SessionState) (label : OptionLabel) (rid : Nat)
    (message : Msg) (tech chosen_text : String) (rs : List (String × String))
    (hnv : dictHasKey s.preferred_technique rid = false)
    (hfind : s.conversation_history.find?
        (fun m => m.response_id == some rid && m.responses.isSome) = some message)
    (htech : (match label with
              | OptionLabel.A => message.option_a_tech
              | OptionLabel.B => message.option_b_tech) = some tech)
    (hresp : message.responses = some rs)
    (htxt : dictGet rs tech = some chosen_text) :
    votePrefer label rid s =
      { conversation_history :=
          updateFirst s.conversation_history rid (fun m => { m with content := chosen_text })
        preferred_technique := dictInsert s.preferred_technique rid tech
        current_message_processed := false
        next_id := s.next_id } := by
  unfold votePrefer
  rw [if_neg (by simp [hnv]), hfind]
  simp only [htech, hresp, Option.some_bind, htxt]

/-! ## The session invariant (C3) -/

theorem sessionInv_initState : SessionInv initState := by
  refine ⟨?_, ?_, ?_, ?_⟩
  · exact Nat.zero_le 1
  · intro _; rfl
  · intro m hm; cases hm
  · intro p hp; cases hp

theorem sessionInv_submitMessage (client : Option Unit)
    (api : String → String → Except String String) (user_profile : UserProfile)
    (shuffle_swap : Bool) (user_input : String) (s : SessionState)
    (h : SessionInv s) :
    SessionInv (submitMessage client api user_profile shuffle_swap user_input s) := by
  obtain ⟨h1, h2, h3, h4⟩ := h
  unfold submitMessage
  by_cases hg : user_input ≠ "" ∧ s.current_message_processed = false
  · rw [if_pos hg]
    have hp0 : s.conversation_history.countP (isPending s.preferred_technique) = 0 :=
      h2 hg.2
    have hfresh : dictHasKey s.preferred_technique s.next_id = false :=
      dictHasKey_eq_false_of_lt _ _ h4
    dsimp only
    constructor
    · show List.countP _ _ ≤ 1
      rw [List.append_assoc, List.countP_append, hp0]
      simp [isPending, hfresh]
    · refine ⟨?_, ?_, ?_⟩
      · intro hfalse
        simp at hfalse
      · intro m hm rid hrid
        rw [List.append_assoc] at hm
        rcases List.mem_append.mp hm with hmem | hmem
        · exact Nat.lt_succ_of_lt (h3 m hmem rid hrid)
        · rcases List.mem_cons.mp hmem with he | he
          · subst he
            cases hrid
          · rcases List.mem_cons.mp he with he' | he'
            · subst he'
              injection hrid with hr
              show rid < s.next_id + 1
              omega
            · cases he'
      · intro p hp
        exact Nat.lt_succ_of_lt (h4 p hp)
  · rw [if_neg hg]
    exact ⟨h1, h2, h3, h4⟩

theorem sessionInv_votePrefer (label : OptionLabel) (rid : Nat) (s : SessionState)
    (h : SessionInv s) : SessionInv (votePrefer label rid s) := by
  obtain ⟨h1, h2, h3, h4⟩ := h
  by_cases hk : dictHasKey s.preferred_technique rid = true
  · unfold votePrefer
    rw [if_pos hk]
    exact ⟨h1, h2, h3, h4⟩
  · have hk' : dictHasKey s.preferred_technique rid = false := by
      simpa using hk
    cases hfind : s.conversation_history.find?
        (fun m => m.response_id == some rid && m.responses.isSome) with
    | none =>
      unfold votePrefer
      rw [if_neg (by simp [hk']), hfind]
      exact ⟨h1, h2, h3, h4⟩
    | some message =>
      cases htech : (match label with
                     | OptionLabel.A => message.option_a_tech
                     | OptionLabel.B => message.option_b_tech) with
      | none =>
        unfold votePrefer
        rw [if_neg (by simp [hk']), hfind]
        simp only [htech]
        exact ⟨h1, h2, h3, h4⟩
      | some tech =>
        cases hresp : message.responses with
        | none =>
          unfold votePrefer
          rw [if_neg (by simp [hk']), hfind]
          simp only [htech, hresp, Option.none_bind]
          exact ⟨h1, h2, h3, h4⟩
        | some rs =>
          cases htxt : dictGet rs tech with
          | none =>
            unfold votePrefer
            rw [if_neg (by simp [hk']), hfind]
            simp only [htech, hresp, Option.some_bind, htxt]
            exact ⟨h1, h2, h3, h4⟩
          | some chosen_text =>
            rw [votePrefer_enabled s label rid message tech chosen_text rs hk'
              hfind htech hresp htxt]
            -- facts about the found message
            have hmem : message ∈ s.conversation_history :=
              List.mem_of_find?_eq_some hfind
            have hpred := List.find?_some hfind
            have hmid : message.response_id = some rid := by
              have := (Bool.and_eq_true _ _).mp hpred
              exact beq_iff_eq.mp this.1
            have hpend : isPending s.preferred_technique message = true := by
              unfold isPending
              rw [hmid]
              simp [hresp, hk']
            -- no message is pending against the enlarged log
            have hnone : ∀ x ∈ s.conversation_history,
                ¬ isPending (dictInsert s.preferred_technique rid tech) x = true := by
              intro x hx hpx
              unfold isPending at hpx
              rcases hand : x.responses.isSome with _ | _
              · rw [hand] at hpx
                simp at hpx
              cases hrx : x.response_id with
              | none =>
                rw [hand, hrx] at hpx
                simp at hpx
              | some ridx =>
                rw [hand, hrx] at hpx
                simp only [Bool.true_and, Bool.not_eq_true'] at hpx
                have hins := dictHasKey_dictInsert s.preferred_technique rid ridx tech
                rw [hpx] at hins
                have hridx : dictHasKey s.preferred_technique ridx = false := by
                  cases hdk : dictHasKey s.preferred_technique ridx
                  · rfl
                  · rw [hdk] at hins
                    simp at hins
                have hne : ridx ≠ rid := by
                  intro he
                  subst he
                  have : (ridx == ridx) = true := beq_self_eq_true ridx
                  rw [this] at hins
                  simp at hins
                have hpx' : isPending s.preferred_technique x = true := by
                  unfold isPending
                  rw [hand, hrx]
                  simp [hridx]
                have hxm : x ≠ message := by
                  intro he
                  subst he
                  rw [hrx] at hmid
                  injection hmid with hc
                  exact hne hc
                have hge := countP_ge_two hx hmem hxm hpx' hpend
                have hpc : pendingCount s
                    = List.countP (isPending s.preferred_technique)
                        s.conversation_history := rfl
                omega
            have hcount0 : s.conversation_history.countP
                (isPending (dictInsert s.preferred_technique rid tech)) = 0 :=
              List.countP_eq_zero.mpr hnone
            refine ⟨?_, ?_, ?_, ?_⟩
            · show List.countP _ _ ≤ 1
              rw [countP_updateFirst _ _ _ _
                (fun x => isPending_content_update _ x chosen_text), hcount0]
              omega
            · intro _
              show List.countP _ _ = 0
              rw [countP_updateFirst _ _ _ _
                (fun x => isPending_content_update _ x chosen_text), hcount0]
            · intro m' hm' rid' hrid'
              obtain ⟨m₀, hm₀, he⟩ :=
                response_id_updateFirst s.conversation_history rid
                  (fun m => { m with content := chosen_text }) (fun _ => rfl) m' hm'
              exact h3 m₀ hm₀ rid' (he ▸ hrid')
            · intro p hp
              show p.1 < s.next_id
              rw [dictInsert, if_neg (by simp [hk'])] at hp
              rcases List.mem_append.mp hp with hmem' | hmem'
              · exact h4 p hmem'
              · rcases List.mem_cons.mp hmem' with he | he
                · subst he
                  exact h3 message hmem rid hmid
                · cases he

theorem sessionInv_appendPlainAssistant (text : String) (s : SessionState)
    (h : SessionInv s) : SessionInv (appendPlainAssistant text s) := by
  obtain ⟨h1, h2, h3, h4⟩ := h
  have hsingle : List.countP (isPending s.preferred_technique)
      [{ role := Role.assistant, content := text }] = 0 := rfl
  refine ⟨?_, ?_, ?_, ?_⟩
  · show List.countP (isPending s.preferred_technique)
        (s.conversation_history ++ [{ role := Role.assistant, content := text }]) ≤ 1
    rw [List.countP_append, hsingle]
    simpa using h1
  · intro hf
    have h0 := h2 hf
    show List.countP (isPending s.preferred_technique)
        (s.conversation_history ++ [{ role := Role.assistant, content := text }]) = 0
    rw [List.countP_append, hsingle]
    have hpc : pendingCount s
        = List.countP (isPending s.preferred_technique) s.conversation_history := rfl
    omega
  · intro m hm rid hrid
    rcases List.mem_append.mp hm with hmem | hmem
    · exact h3 m hmem rid hrid
    · rcases List.mem_cons.mp hmem with he | he
      · subst he
        cases hrid
      · cases he
  · exact h4

theorem sessionInv_resetSession (s : SessionState) (_ : SessionInv s) :
    SessionInv (resetSession s) := by
  refine ⟨?_, ?_, ?_, ?_⟩
  · exact Nat.zero_le 1
  · intro _; rfl
  · intro m hm; cases hm
  · intro p hp; cases hp

theorem sessionInv_of_reachable (s : SessionState) (h : Reachable s) : SessionInv s := by
  induction h with
  | init => exact sessionInv_initState
  | submit client api user_profile shuffle_swap user_input _ ih =>
    exact sessionInv_submitMessage client api user_profile shuffle_swap user_input _ ih
  | vote label rid _ ih => exact sessionInv_votePrefer label rid _ ih
  | nudge text _ ih => exact sessionInv_appendPlainAssistant text _ ih
  | reset _ ih => exact sessionInv_resetSession _ ih

/-! ## C3 -/

/-- C3: in every reachable session state whose most recent assistant
turn is a still-unvoted A/B experiment, submitting a new user message is
a no-op — the state (history included) is unchanged, so no user turn is
appended and no second pending turn is created.  The guard is
`current_message_processed`, which the session invariant ties to
pendingness. -/
theorem C3_single_pending (s : SessionState) (hs : Reachable s) (m : Msg) (rid : Nat)
    (hlast : latestAssistantTurn s.conversation_history = some m)
    (hresp : m.responses.isSome = true)
    (hrid : m.response_id = some rid)
    (hunvoted : dictHasKey s.preferred_technique rid = false)
    (client : Option Unit) (api : String → String → Except String String)
    (user_profile : UserProfile) (shuffle_swap : Bool) (user_input : String) :
    submitMessage client api user_profile shuffle_swap user_input s = s := by
  obtain ⟨h1, h2, h3, h4⟩ := sessionInv_of_reachable s hs
  have hmem : m ∈ s.conversation_history :=
    List.mem_reverse.mp (List.mem_of_find?_eq_some hlast)
  have hpend : isPending s.preferred_technique m = true := by
    unfold isPending
    rw [hrid]
    simp [hresp, hunvoted]
  have hpos : 0 < pendingCount s :=
    List.countP_pos.mpr ⟨m, hmem, hpend⟩
  have hproc : s.current_message_processed = true := by
    cases hp : s.current_message_processed
    · have h0 := h2 hp
      omega
    · rfl
  have hg : ¬(user_input ≠ "" ∧ s.current_message_processed = false) := by
    intro hcontra
    rw [hproc] at hcontra
    exact absurd hcontra.2 (by simp)
  unfold submitMessage
  rw [if_neg hg]

theorem C3_witness :
    latestAssistantTurn (submitMessage (some ()) (fun _ _ => Except.ok "ok")
        ⟨"n", "n", "Casual", [], "", [], "", "", "Neutral"⟩ false "hi"
        initState).conversation_history
      = some { role := Role.assistant, content := "", response_id := some 0,
               responses := some [("conditional", "ok"), ("dynamic_context", "ok")],
               option_a_tech := some "conditional",
               option_b_tech := some "dynamic_context" }
    ∧ submitMessage (some ()) (fun _ _ => Except.ok "ok")
        ⟨"n", "n", "Casual", [], "", [], "", "", "Neutral"⟩ true "again"
        (submitMessage (some ()) (fun _ _ => Except.ok "ok")
          ⟨"n", "n", "Casual", [], "", [], "", "", "Neutral"⟩ false "hi" initState)
      = submitMessage (some ()) (fun _ _ => Except.ok "ok")
        ⟨"n", "n", "Casual", [], "", [], "", "", "Neutral"⟩ false "hi" initState :=
  ⟨by decide,
   C3_single_pending _
     (Reachable.submit (some ()) (fun _ _ => Except.ok "ok")
       ⟨"n", "n", "Casual", [], "", [], "", "", "Neutral"⟩ false "hi" Reachable.init)
     { role := Role.assistant, content := "", response_id := some 0,
       responses := some [("conditional", "ok"), ("dynamic_context", "ok")],
       option_a_tech := some "conditional", option_b_tech := some "dynamic_context" }
     0 (by decide) (by decide) (by decide) (by decide)
     (some ()) (fun _ _ => Except.ok "ok")
     ⟨"n", "n", "Casual", [], "", [], "", "", "Neutral"⟩ true "again"⟩

/-! ## C5 -/

/-- C5: resolving a pending turn's vote for a label appends exactly one
preference-log entry mapping the turn's response identifier to the
strategy assigned to that label (other keys untouched), rewrites only
that turn's displayed content to the chosen strategy's candidate text
(both candidates stay in the turn's `responses` record), and the
resolved turn thereafter displays only the chosen text. -/
theorem C5_vote_resolution (s : SessionState) (label : OptionLabel) (rid : Nat)
    (message : Msg) (tech chosen_text : String) (rs : List (String × String))
    (hfind : s.conversation_history.find?
        (fun m => m.response_id == some rid && m.responses.isSome) = some message)
    (hunvoted : dictHasKey s.preferred_technique rid = false)
    (hresp : message.responses = some rs)
    (htech : (match label with
              | OptionLabel.A => message.option_a_tech
              | OptionLabel.B => message.option_b_tech) = some tech)
    (htxt : dictGet rs tech = some chosen_text) :
    (votePrefer label rid s).preferred_technique
        = s.preferred_technique ++ [(rid, tech)]
    ∧ (votePrefer label rid s).preferred_technique.length
        = s.preferred_technique.length + 1
    ∧ dictGet (votePrefer label rid s).preferred_technique rid = some tech
    ∧ (∀ k, k ≠ rid →
        dictGet (votePrefer label rid s).preferred_technique k
          = dictGet s.preferred_technique k)
    ∧ (∃ pre post, s.conversation_history = pre ++ message :: post
        ∧ (votePrefer label rid s).conversation_history
            = pre ++ { message with content := chosen_text } :: post)
    ∧ displayedAssistantText (votePrefer label rid s).preferred_technique
        { message with content := chosen_text } = some chosen_text := by
  rw [votePrefer_enabled s label rid message tech chosen_text rs hunvoted hfind
    htech hresp htxt]
  dsimp only
  have hinsert : dictInsert s.preferred_technique rid tech
      = s.preferred_technique ++ [(rid, tech)] := by
    rw [dictInsert, if_neg (by simp [hunvoted])]
  have hfindnone : s.preferred_technique.find? (fun p => p.1 == rid) = none := by
    rw [List.find?_eq_none]
    intro p hp hpt
    have : dictHasKey s.preferred_technique rid = true :=
      List.any_eq_true.mpr ⟨p, hp, hpt⟩
    rw [hunvoted] at this
    exact Bool.false_ne_true this
  have hget : dictGet (s.preferred_technique ++ [(rid, tech)]) rid = some tech := by
    unfold dictGet
    rw [List.find?_append, hfindnone]
    simp
  have hpa := List.find?_some hfind
  have hmid : message.response_id = some rid :=
    beq_iff_eq.mp ((Bool.and_eq_true _ _).mp hpa).1
  refine ⟨hinsert, ?_, ?_, ?_, ?_, ?_⟩
  · rw [hinsert]
    simp
  · rw [hinsert]
    exact hget
  · intro k hk
    rw [hinsert]
    unfold dictGet
    rw [List.find?_append]
    have hnone : List.find? (fun p => p.1 == k) [(rid, tech)] = none := by
      have : (rid == k) = false := beq_eq_false_iff_ne.mpr (fun he => hk he.symm)
      simp [List.find?_cons, this]
    rw [hnone]
    cases hf : s.preferred_technique.find? (fun p => p.1 == k) <;> simp [hf]
  · obtain ⟨pre, post, hdec, hpre⟩ := find?_decomp hfind
    refine ⟨pre, post, hdec, ?_⟩
    rw [hdec]
    exact updateFirst_of_decomp pre post message rid
      (fun m => { m with content := chosen_text }) hpre hpa
  · simp [displayedAssistantText, hresp, hmid, hinsert, hget, htxt]

theorem C5_witness :
    (([{ role := Role.user, content := "hi" },
      { role := Role.assistant, content := "", response_id := some 0,
        responses := some [("conditional", "ca"), ("dynamic_context", "cb")],
        option_a_tech := some "conditional",
        option_b_tech := some "dynamic_context" }] : List Msg).find?
        (fun m => m.response_id == some 0 && m.responses.isSome)
      = some { role := Role.assistant, content := "", response_id := some 0,
               responses := some [("conditional", "ca"), ("dynamic_context", "cb")],
               option_a_tech := some "conditional",
               option_b_tech := some "dynamic_context" })
    ∧ ((votePrefer OptionLabel.A 0
          { conversation_history :=
              [{ role := Role.user, content := "hi" },
               { role := Role.assistant, content := "", response_id := some 0,
                 responses := some [("conditional", "ca"), ("dynamic_context", "cb")],
                 option_a_tech := some "conditional",
                 option_b_tech := some "dynamic_context" }]
            preferred_technique := []
            current_message_processed := true
            next_id := 1 }).preferred_technique = [] ++ [(0, "conditional")]
        ∧ (votePrefer OptionLabel.A 0
          { conversation_history :=
              [{ role := Role.user, content := "hi" },
               { role := Role.assistant, content := "", response_id := some 0,
                 responses := some [("conditional", "ca"), ("dynamic_context", "cb")],
                 option_a_tech := some "conditional",
                 option_b_tech := some "dynamic_context" }]
            preferred_technique := []
            current_message_processed := true
            next_id := 1 }).preferred_technique.length
            = List.length ([] : List (Nat × String)) + 1
        ∧ dictGet (votePrefer OptionLabel.A 0
          { conversation_history :=
              [{ role := Role.user, content := "hi" },
               { role := Role.assistant, content := "", response_id := some 0,
                 responses := some [("conditional", "ca"), ("dynamic_context", "cb")],
                 option_a_tech := some "conditional",
                 option_b_tech := some "dynamic_context" }]
            preferred_technique := []
            current_message_processed := true
            next_id := 1 }).preferred_technique 0 = some "conditional"
        ∧ (∀ k, k ≠ 0 →
            dictGet (votePrefer OptionLabel.A 0
          { conversation_history :=
              [{ role := Role.user, content := "hi" },
               { role := Role.assistant, content := "", response_id := some 0,
                 responses := some [("conditional", "ca"), ("dynamic_context", "cb")],
                 option_a_tech := some "conditional",
                 option_b_tech := some "dynamic_context" }]
            preferred_technique := []
            current_message_processed := true
            next_id := 1 }).preferred_technique k
              = dictGet ([] : List (Nat × String)) k)
        ∧ (∃ pre post,
            ([{ role := Role.user, content := "hi" },
             { role := Role.assistant, content := "", response_id := some 0,
               responses := some [("conditional", "ca"), ("dynamic_context", "cb")],
               option_a_tech := some "conditional",
               option_b_tech := some "dynamic_context" }] : List Msg)
              = pre ++ { role := Role.assistant, content := "", response_id := some 0,
                         responses := some [("conditional", "ca"), ("dynamic_context", "cb")],
                         option_a_tech := some "conditional",
                         option_b_tech := some "dynamic_context" } :: post
            ∧ (votePrefer OptionLabel.A 0
          { conversation_history :=
              [{ role := Role.user, content := "hi" },
               { role := Role.assistant, content := "", response_id := some 0,
                 responses := some [("conditional", "ca"), ("dynamic_context", "cb")],
                 option_a_tech := some "conditional",
                 option_b_tech := some "dynamic_context" }]
            preferred_technique := []
            current_message_processed := true
            next_id := 1 }).conversation_history
              = pre ++ { role := Role.assistant, content := "ca", response_id := some 0,
                         responses := some [("conditional", "ca"), ("dynamic_context", "cb")],
                         option_a_tech := some "conditional",
                         option_b_tech := some "dynamic_context" } :: post)
        ∧ displayedAssistantText (votePrefer OptionLabel.A 0
          { conversation_history :=
              [{ role := Role.user, content := "hi" },
               { role := Role.assistant, content := "", response_id := some 0,
                 responses := some [("conditional", "ca"), ("dynamic_context", "cb")],
                 option_a_tech := some "conditional",
                 option_b_tech := some "dynamic_context" }]
            preferred_technique := []
            current_message_processed := true
            next_id := 1 }).preferred_technique
          { role := Role.assistant, content := "ca", response_id := some 0,
            responses := some [("conditional", "ca"), ("dynamic_context", "cb")],
            option_a_tech := some "conditional",
            option_b_tech := some "dynamic_context" } = some "ca") :=
  ⟨by decide,
   C5_vote_resolution
     { conversation_history :=
         [{ role := Role.user, content := "hi" },
          { role := Role.assistant, content := "", response_id := some 0,
            responses := some [("conditional", "ca"), ("dynamic_context", "cb")],
            option_a_tech := some "conditional",
            option_b_tech := some "dynamic_context" }]
       preferred_technique := []
       current_message_processed := true
       next_id := 1 }
     OptionLabel.A 0
     { role := Role.assistant, content := "", response_id := some 0,
       responses := some [("conditional", "ca"), ("dynamic_context", "cb")],
       option_a_tech := some "conditional", option_b_tech := some "dynamic_context" }
     "conditional" "ca" [("conditional", "ca"), ("dynamic_context", "cb")]
     (by decide) (by decide) (by decide) (by decide) (by decide)⟩

/-! ## C7 -/

/-- C7: with both file writes succeeding and `send_email_report = true`:
when an admin recipient is configured the persist returns the
`(filename, email_sent)` pair — the delivery outcome is a boolean in the
result, never an exception — and the freshly written JSON document and
CSV row stay in place whatever that outcome is; when no admin recipient
is configured no SMTP attempt is made and the persist still succeeds,
returning the bare filename. -/
theorem C7_email_failure_flag (env : SaveEnv) (fs : FileState)
    (conversation_id user_id : String) (conversation_history : List Msg)
    (log : List (Nat × String)) (user_profile : UserProfile)
    (preferred : Option String) (feedback : String)
    (hjson : env.json_write_ok = true) (hcsv : env.csv_write_ok = true) :
    (∀ addr, env.admin_email = some addr →
      (save_conversation env fs conversation_id user_id conversation_history log
          user_profile preferred feedback true).2
        = SaveResult.savedWithEmail
            ("conversation_data/conversation_" ++ conversation_id ++ ".json")
            (if env.email_username.isNone ∨ env.email_password.isNone then false
             else env.smtp_delivery_ok)
      ∧ (∃ doc, (save_conversation env fs conversation_id user_id conversation_history
            log user_profile preferred feedback true).1.json_files
          = fs.json_files
            ++ [("conversation_data/conversation_" ++ conversation_id ++ ".json", doc)])
      ∧ (∃ row, (save_conversation env fs conversation_id user_id conversation_history
            log user_profile preferred feedback true).1.csv_rows
          = fs.csv_rows ++ [row]))
    ∧ (env.admin_email = none →
      (save_conversation env fs conversation_id user_id conversation_history log
          user_profile preferred feedback true).2
        = SaveResult.saved ("conversation_data/conversation_" ++ conversation_id ++ ".json")
      ∧ (save_conversation env fs conversation_id user_id conversation_history log
          user_profile preferred feedback true).1.smtp_attempts = fs.smtp_attempts
      ∧ (∃ doc, (save_conversation env fs conversation_id user_id conversation_history
            log user_profile preferred feedback true).1.json_files
          = fs.json_files
            ++ [("conversation_data/conversation_" ++ conversation_id ++ ".json", doc)])
      ∧ (∃ row, (save_conversation env fs conversation_id user_id conversation_history
            log user_profile preferred feedback true).1.csv_rows
          = fs.csv_rows ++ [row])) := by
  constructor
  · intro addr haddr
    simp only [save_conversation, send_email, haddr]
    rw [if_neg (by simp [hjson]), if_neg (by simp [hcsv]), if_pos trivial]
    by_cases hcred : env.email_username.isNone ∨ env.email_password.isNone
    · rw [if_pos hcred]
      exact ⟨by rw [if_pos hcred], ⟨_, by rfl⟩, ⟨_, by rfl⟩⟩
    · rw [if_neg hcred]
      exact ⟨by rw [if_neg hcred], ⟨_, by rfl⟩, ⟨_, by rfl⟩⟩
  · intro haddr
    simp only [save_conversation, send_email, haddr]
    rw [if_neg (by simp [hjson]), if_neg (by simp [hcsv]), if_pos trivial]
    exact ⟨by rfl, by rfl, ⟨_, by rfl⟩, ⟨_, by rfl⟩⟩

theorem C7_witness :
    (exampleEnv.json_write_ok = true)
    ∧ (exampleEnv.csv_write_ok = true)
    ∧ ((∀ addr, exampleEnv.admin_email = some addr →
        (save_conversation exampleEnv exampleFs "c1" "u1" [] [] exampleProfile
            none "" true).2
          = SaveResult.savedWithEmail
              ("conversation_data/conversation_" ++ "c1" ++ ".json")
              (if exampleEnv.email_username.isNone ∨ exampleEnv.email_password.isNone
               then false else exampleEnv.smtp_delivery_ok)
        ∧ (∃ doc, (save_conversation exampleEnv exampleFs "c1" "u1" [] []
              exampleProfile none "" true).1.json_files
            = exampleFs.json_files
              ++ [("conversation_data/conversation_" ++ "c1" ++ ".json", doc)])
        ∧ (∃ row, (save_conversation exampleEnv exampleFs "c1" "u1" [] []
              exampleProfile none "" true).1.csv_rows
            = exampleFs.csv_rows ++ [row]))
      ∧ (exampleEnv.admin_email = none →
        (save_conversation exampleEnv exampleFs "c1" "u1" [] [] exampleProfile
            none "" true).2
          = SaveResult.saved ("conversation_data/conversation_" ++ "c1" ++ ".json")
        ∧ (save_conversation exampleEnv exampleFs "c1" "u1" [] [] exampleProfile
            none "" true).1.smtp_attempts = exampleFs.smtp_attempts
        ∧ (∃ doc, (save_conversation exampleEnv exampleFs "c1" "u1" [] []
              exampleProfile none "" true).1.json_files
            = exampleFs.json_files
              ++ [("conversation_data/conversation_" ++ "c1" ++ ".json", doc)])
        ∧ (∃ row, (save_conversation exampleEnv exampleFs "c1" "u1" [] []
              exampleProfile none "" true).1.csv_rows
            = exampleFs.csv_rows ++ [row]))) :=
  ⟨rfl, rfl,
   C7_email_failure_flag exampleEnv exampleFs "c1" "u1" [] [] exampleProfile
     none "" rfl rfl⟩

end BestieAI
